import Mathlib

/-!
Verification of the Mock_Mantra client script (`script.js`): a shallow
embedding of its question parsing, interview session state machine, avatar
animation loop, speech playback controller, analysis retry loop and results
renderer, with theorems settling the specification's claims.

JavaScript strings are modelled as `List Char` (named `JStr`) so that every
string operation the script performs (`split`, `trim`, the numbered-line
regex test, concatenation) is a structurally recursive function the kernel
can evaluate.
-/

set_option maxRecDepth 8000

namespace MockMantra

/-- A JavaScript string, modelled as its character list. -/
abbrev JStr := List Char

/-- Converts a Lean string literal to the `JStr` model. -/
def str (s : String) : JStr := s.toList

/-- Embeds `text.split('\n')`: split on every newline character. -/
def splitNl : JStr → List JStr
  | [] => [[]]
  | c :: rest =>
    if c == '\n' then [] :: splitNl rest
    else
      match splitNl rest with
      | [] => [[c]]
      | h :: t => (c :: h) :: t

/-- Embeds `text.split('\n\n')`: left-to-right scan splitting at each
non-overlapping occurrence of two consecutive newlines. -/
def splitDoubleNlGo (acc : JStr) : JStr → List JStr
  | '\n' :: '\n' :: rest => acc.reverse :: splitDoubleNlGo [] rest
  | c :: rest => splitDoubleNlGo (c :: acc) rest
  | [] => [acc.reverse]

/-- Embeds `text.split('\n\n')` from the empty accumulator. -/
def splitDoubleNl (s : JStr) : List JStr := splitDoubleNlGo [] s

/-- Embeds JavaScript `String.prototype.trim()`: strip leading and trailing
whitespace. -/
def jsTrim (s : JStr) : JStr :=
  ((s.dropWhile Char.isWhitespace).reverse.dropWhile Char.isWhitespace).reverse

/-! ## Question parsing (startSetup fallback, script.js 288-316) -/

/-- Embeds the regex test `/^\d+[\.\):]/.test(line)`: one or more leading
digits followed by `.`, `)` or `:`. -/
def matchesNumberedStart (line : JStr) : Bool :=
  match line with
  | [] => false
  | c :: _ =>
    c.isDigit &&
      (match line.dropWhile Char.isDigit with
       | [] => false
       | d :: _ => d == '.' || d == ')' || d == ':')

/-- Embeds the numbered-question accumulation loop of `startSetup`
(script.js 296-311): `currentQuestion` starts empty; a line matching the
numbered pattern flushes the current question (trimmed, if non-empty) and
starts a new one; any other line is appended with a space separator; the
final non-empty accumulator is flushed after the loop. -/
def extractNumberedGo : JStr → List JStr → List JStr
  | current, [] => if current == [] then [] else [jsTrim current]
  | current, line :: rest =>
    if matchesNumberedStart line then
      (if current == [] then [] else [jsTrim current]) ++ extractNumberedGo line rest
    else
      extractNumberedGo (current ++ [' '] ++ line) rest

/-- Embeds the text fallback of `startSetup` (script.js 292-315): split on
newlines, keep non-blank lines, run the numbered-question extraction; if
that yields no questions, split the raw text on `"\n\n"` and keep the
non-blank paragraphs instead. -/
def parseQuestionsFromText (text : JStr) : List JStr :=
  let questionLines := (splitNl text).filter (fun l => jsTrim l != [])
  let qs := extractNumberedGo [] questionLines
  if qs.isEmpty then (splitDoubleNl text).filter (fun q => jsTrim q != []) else qs

/-- Embeds script.js 289-292 and 313-316: `allQuestions` is
`response.question_list || []`, replaced by the text fallback parse when
that list is empty. -/
def parseResponseQuestions (question_list : Option (List JStr))
    (questionsText : JStr) : List JStr :=
  let base := question_list.getD []
  if base.isEmpty then parseQuestionsFromText questionsText else base

/-! ## Interview session state (script.js globals 1-20, startSetup 257-340,
startInterview 342-361) -/

/-- The globals that decide whether an interview can start: `questions`
(script.js line 4, the list read by `startInterview`), `allQuestions`
(line 20, the list written by `startSetup`), and `currentQuestionIndex`
(line 3). -/
structure SessionState where
  questions : List JStr
  allQuestions : List JStr
  currentQuestionIndex : Nat
deriving DecidableEq

/-- The state at page load: both question lists empty, index 0
(script.js lines 3-4 and 20). -/
def initialSession : SessionState := ⟨[], [], 0⟩

/-- Embeds the success callback of `startSetup`'s question request
(script.js 283-316): stores the parsed question list in `allQuestions`.
The global `questions` is not assigned anywhere in the script. -/
def startSetupSuccess (question_list : Option (List JStr)) (questionsText : JStr)
    (s : SessionState) : SessionState :=
  { s with allQuestions := parseResponseQuestions question_list questionsText }

/-- Outcome of `startInterview` (script.js 342-361): either the
"No more questions available" error, or a capture+speech cycle started for
the current question (`questions[currentQuestionIndex]`). -/
inductive StartInterviewResult
  | noQuestionsError
  | begun (questionText : JStr)
deriving DecidableEq

/-- Embeds `startInterview` (script.js 342-361): guarded by
`currentQuestionIndex >= questions.length`; otherwise sets up and starts
recording and speaks the current question. -/
def startInterview (s : SessionState) : StartInterviewResult :=
  if s.currentQuestionIndex ≥ s.questions.length then .noQuestionsError
  else .begun (s.questions.getD s.currentQuestionIndex [])

/-! ## Recorder stop and interview stop (script.js 443-459, 536-574) -/

/-- The `MediaRecorder.state` values the script distinguishes
(script.js 444: `mediaRecorder.state !== 'inactive'`). -/
inductive RecorderState
  | inactive
  | recording
  | paused
deriving DecidableEq

/-- Observable actions performed by the stop paths. -/
inductive JsAction
  | recorderStop
  | uiUpdate
  | stopCheatTimer
  | showInfo (m : JStr)
  | showError (m : JStr)
  | audioPause
  | stopSpeakingCall
  | analyzeRequest
deriving DecidableEq

/-- The globals touched by `stopRecording` and `stopInterview`:
`mediaRecorder` (none until `setupRecording` constructs one), `recording`,
`tabFocusInterval`, `analyzingData`, `analysisRetryCount`. -/
structure StopState where
  mediaRecorder : Option RecorderState
  recording : Bool
  tabFocusInterval : Bool
  analyzingData : Bool
  analysisRetryCount : Nat
deriving DecidableEq

/-- Embeds `stopRecording` (script.js 443-459): only when a recorder exists
and its state is not `'inactive'` does it stop the recorder, clear the
recording flag and UI, and stop cheat detection; otherwise nothing happens. -/
def stopRecording (s : StopState) : StopState × List JsAction :=
  match s.mediaRecorder with
  | some st =>
    if st ≠ RecorderState.inactive then
      ({ s with mediaRecorder := some .inactive, recording := false,
                tabFocusInterval := false },
       [.recorderStop, .uiUpdate, .stopCheatTimer])
    else (s, [])
  | none => (s, [])

/-- Embeds `stopInterview` (script.js 536-574): stops any ongoing recording,
disables controls, shows the analyzing status, pauses audio, stops the
speaking animation, resets the analysis flags and submits for analysis. -/
def stopInterview (s : StopState) : StopState × List JsAction :=
  let r := stopRecording s
  ({ r.1 with analyzingData := true, analysisRetryCount := 0 },
   r.2 ++ [.uiUpdate, .showInfo (str "Analyzing interview responses..."),
           .audioPause, .stopSpeakingCall, .analyzeRequest])

/-! ## Analysis retry loop (script.js 555-557, 576-614) -/

/-- `MAX_RETRY_ATTEMPTS` (script.js 17). -/
def MAX_RETRY_ATTEMPTS : Nat := 3

/-- The retry delay passed to `setTimeout` (script.js 606), in milliseconds. -/
def ANALYSIS_RETRY_DELAY : Nat := 5000

/-- Where an analysis submission run stands: result displayed, terminal
failure message shown (`analyzingData` cleared, no further request), or a
retry still scheduled. -/
inductive AnalysisOutcome
  | completed
  | failed
  | pending
deriving DecidableEq

/-- What a run of the analysis loop did: how many requests it issued, the
delay before each retry, and how it ended. -/
structure AnalysisRun where
  requests : Nat
  delays : List Nat
  outcome : AnalysisOutcome
deriving DecidableEq

/-- Embeds `analyzeInterviewResponses` (script.js 576-614) against a list of
request outcomes (`true` = success): each call issues one request; on error,
if `analysisRetryCount < MAX_RETRY_ATTEMPTS` the counter is incremented and
a retry is scheduled after `ANALYSIS_RETRY_DELAY`; otherwise the terminal
failure message is shown and `analyzingData` is cleared. -/
def analyzeFrom (analysisRetryCount : Nat) : List Bool → AnalysisRun
  | [] => ⟨0, [], .pending⟩
  | ok :: rest =>
    if ok then ⟨1, [], .completed⟩
    else if analysisRetryCount < MAX_RETRY_ATTEMPTS then
      let r := analyzeFrom (analysisRetryCount + 1) rest
      ⟨r.requests + 1, ANALYSIS_RETRY_DELAY :: r.delays, r.outcome⟩
    else ⟨1, [], .failed⟩

/-- A fresh submission as started by `stopInterview` (script.js 557 resets
`analysisRetryCount = 0` before calling `analyzeInterviewResponses`). -/
def submitAnalysis (outcomes : List Bool) : AnalysisRun := analyzeFrom 0 outcomes

/-! ## Avatar animator (script.js 107-255)

The frame loop is modelled against the host's frame scheduler:
`requestAnimationFrame` hands out fresh handle ids into a pending list, the
host later fires a pending handle, and `cancelAnimationFrame` removes one.
The `expressionCanvas` is assumed present (startSpeaking initializes it at
script.js 222-224, so `animateSpeech` returns a live `drawMouth`). -/

/-- Animator state: the `isSpeaking` flag (script.js 9), the set of pending
frame-request handles held by the host scheduler, a fresh-handle counter,
and the global `animationFrame` variable (script.js 13), which remembers
only the most recently issued handle. -/
structure AnimState where
  isSpeaking : Bool
  pending : List Nat
  nextId : Nat
  animationFrame : Option Nat
deriving DecidableEq

/-- Animator state at page load. -/
def initAnim : AnimState := ⟨false, [], 0, none⟩

/-- Embeds `startSpeaking` (script.js 217-238): sets the speaking flag and
invokes the freshly created `drawMouth` once, which draws and schedules the
next frame via `requestAnimationFrame`, storing the handle in
`animationFrame`. There is no already-speaking guard. -/
def startSpeakingAnim (s : AnimState) : AnimState :=
  { s with isSpeaking := true,
           pending := s.pending ++ [s.nextId],
           nextId := s.nextId + 1,
           animationFrame := some s.nextId }

/-- Embeds the host firing one pending frame whose callback is a `drawMouth`
closure (script.js 159-211): the handle is consumed; the callback clears the
canvas, returns if the speaking flag is off, and otherwise draws and
reschedules itself, storing the new handle in `animationFrame`. -/
def fireFrame (s : AnimState) (h : Nat) : AnimState :=
  if h ∈ s.pending then
    let s' := { s with pending := s.pending.erase h }
    if s'.isSpeaking then
      { s' with pending := s'.pending ++ [s'.nextId],
                nextId := s'.nextId + 1,
                animationFrame := some s'.nextId }
    else s'
  else s

/-- Embeds `stopSpeaking` (script.js 240-255): clears the speaking flag and
the canvas, and cancels the handle stored in `animationFrame` (only the most
recently stored one), setting it to null. -/
def stopSpeakingAnim (s : AnimState) : AnimState :=
  let s' := { s with isSpeaking := false }
  match s'.animationFrame with
  | some h => { s' with pending := s'.pending.erase h, animationFrame := none }
  | none => s'

/-- Fires a list of pending frame handles in order. -/
def fireList (s : AnimState) : List Nat → AnimState
  | [] => s
  | h :: t => fireList (fireFrame s h) t

/-! ## Per-frame draw computation (script.js 159-211) -/

/-- Embeds `drawMouth`'s `openAmount` (script.js 166):
`Math.sin(frameCount * 0.3) * intensity + intensity`, over an abstract sine
function. -/
def openAmount (sine : ℝ → ℝ) (intensity : ℝ) (frameCount : ℕ) : ℝ :=
  sine (frameCount * 0.3) * intensity + intensity

/-- Embeds `drawMouth`'s `mouthHeight` (script.js 167):
`mouthBaseHeight + (mouthBaseHeight * 3 * openAmount)`. -/
def mouthHeightOf (sine : ℝ → ℝ) (mouthBaseHeight intensity : ℝ)
    (frameCount : ℕ) : ℝ :=
  mouthBaseHeight + mouthBaseHeight * 3 * openAmount sine intensity frameCount

/-- The part of a `drawMouth` invocation the frame counter sees
(script.js 159-211): if the speaking flag is off the callback returns after
clearing, without drawing; otherwise it draws one frame and increments
`frameCount` exactly once (script.js 209). The returned flag tells whether a
frame was drawn. -/
structure DrawState where
  isSpeaking : Bool
  frameCount : Nat
deriving DecidableEq

/-- One `drawMouth` invocation as seen by the frame counter. -/
def drawMouthStep (s : DrawState) : DrawState × Bool :=
  if s.isSpeaking then ({ s with frameCount := s.frameCount + 1 }, true)
  else (s, false)

/-! ## Avatar setup (script.js 107-140) -/

/-- DOM state relevant to `setupAvatarAnimations`: the `expressionCanvas`
elements currently in the container, the number of `'resize'` listeners the
animator has registered on the window, and a fresh-element counter. -/
structure AvatarDom where
  canvasIds : List Nat
  resizeListeners : Nat
  nextCanvasId : Nat
deriving DecidableEq

/-- DOM state at page load: no canvas, no listener. -/
def initAvatarDom : AvatarDom := ⟨[], 0, 0⟩

/-- Embeds `setupAvatarAnimations` (script.js 107-140): removes the existing
`#expressionCanvas` if any (112-114), appends a freshly created canvas
(116-126), and registers a new `'resize'` listener on the window (137)
without removing any previously registered one. -/
def setupAvatar (d : AvatarDom) : AvatarDom :=
  let afterRemove := match d.canvasIds with
    | [] => []
    | _ :: t => t
  { canvasIds := afterRemove ++ [d.nextCanvasId],
    resizeListeners := d.resizeListeners + 1,
    nextCanvasId := d.nextCanvasId + 1 }

/-! ## Speech playback controller (script.js 363-394) -/

/-- The intensity `startSpeaking` passes to `animateSpeech`
(script.js 227). -/
def speakIntensity : ℚ := 0.8

/-- Outcome of the `/speak_question` request: a response (whose `audio_url`
may be absent) or a request error. -/
inductive TtsResponse
  | success (audio_url : Option JStr)
  | failure
deriving DecidableEq

/-- Observable events of one `speakQuestion` run. -/
inductive SpeakEvent
  | setBubble (text : JStr)
  | startSpeakingCall (intensity : ℚ)
  | postSynthesis (question : JStr)
  | playAudio (url : JStr)
  | logErrorOnly
  | stopSpeakingCall
  | showErrorMsg (m : JStr)
deriving DecidableEq

/-- Embeds `speakQuestion` (script.js 363-394): sets the speech bubble,
calls `startSpeaking` (whose draw loop uses intensity 0.8), then posts the
question for synthesis. On request error: console error, `stopSpeaking`, and
a user-visible message. On a response without `audio_url`: `stopSpeaking`
and a user-visible message. On a response with `audio_url`: playback starts;
if the playback engine rejects, the error is logged and `stopSpeaking` is
called (no user-visible message on this path). -/
def speakQuestionTrace (questionText : JStr) (resp : TtsResponse)
    (playbackOk : Bool) : List SpeakEvent :=
  [.setBubble questionText, .startSpeakingCall speakIntensity,
   .postSynthesis questionText] ++
  match resp with
  | .failure =>
    [.logErrorOnly, .stopSpeakingCall,
     .showErrorMsg (str "Error generating speech. Continuing with text only.")]
  | .success none =>
    [.stopSpeakingCall, .showErrorMsg (str "Error: No audio URL received")]
  | .success (some url) =>
    .playAudio url :: (if playbackOk then [] else [.logErrorOnly, .stopSpeakingCall])

/-! ## Recording upload and question advance (script.js 412-414, 443-459,
461-510, 512-534)

`mediaRecorder.stop()` fires the `onstop` handler (which calls
`saveRecording`, script.js 412-414) from the host task queue, after the
synchronous caller has run to completion. `saveRecording` reads the
`currentQuestionIndex` and `candidateId` globals at the time it runs. -/

/-- An upload as assembled by `saveRecording` (script.js 468-472): the blob
plus the `question_index` and `candidate_id` form fields. -/
structure UploadRecord where
  question_index : Nat
  candidate_id : JStr
deriving DecidableEq

/-- State for the record/advance flow: the index and question count, the
recorder activity, the buffered chunk count, the queued `onstop` tasks, the
uploads issued so far, and the candidate id global. -/
structure RecordingFlow where
  currentQuestionIndex : Nat
  questionsCount : Nat
  recorderActive : Bool
  recordedChunks : Nat
  saveTasks : Nat
  uploads : List UploadRecord
  candidateId : JStr
deriving DecidableEq

/-- Embeds `stopRecording`'s recorder effect in this flow (script.js
443-459): an active recorder is stopped, which queues one `onstop` task. -/
def stopRecordingFlow (s : RecordingFlow) : RecordingFlow :=
  if s.recorderActive then
    { s with recorderActive := false, saveTasks := s.saveTasks + 1 }
  else s

/-- Embeds the synchronous part of `nextQuestion` (script.js 512-534): stop
the current recording, increment `currentQuestionIndex`; if the index now
reaches the question count, `stopInterview` runs (its `stopRecording` is a
no-op, the recorder being already inactive); otherwise the next cycle is
scheduled after the settle delay. -/
def nextQuestionSync (s : RecordingFlow) : RecordingFlow :=
  let s1 := stopRecordingFlow s
  let s2 := { s1 with currentQuestionIndex := s1.currentQuestionIndex + 1 }
  if s2.currentQuestionIndex ≥ s2.questionsCount then stopRecordingFlow s2 else s2

/-- Embeds the host running one queued `onstop` task, i.e. `saveRecording`
(script.js 461-510): with no buffered data it only shows an error; otherwise
it uploads the blob with the *current* values of `question_index` and
`candidate_id`. -/
def runSaveRecordingTask (s : RecordingFlow) : RecordingFlow :=
  match s.saveTasks with
  | 0 => s
  | n + 1 =>
    if s.recordedChunks = 0 then { s with saveTasks := n }
    else
      { s with saveTasks := n,
               uploads := s.uploads ++ [⟨s.currentQuestionIndex, s.candidateId⟩] }

/-! ## Results renderer (script.js 616-688) -/

/-- One entry of `question_assessments`. -/
structure QAItem where
  question : JStr
  assessment : JStr
  score : Nat
deriving DecidableEq

/-- The analysis result payload; `none` models an absent field. -/
structure ResultPayload where
  overall_assessment : Option JStr
  overall_score : Option Nat
  question_assessments : Option (List QAItem)
  strengths : Option (List JStr)
  areas_for_improvement : Option (List JStr)
  recommended_resources : Option (List JStr)
deriving DecidableEq

/-- JavaScript falsiness of an optional string field: absent or empty. -/
def jsFalsyStr (o : Option JStr) : Bool := o.getD [] == []

/-- How a `displayResults` call ends: refused by the guard, aborted by an
uncaught `TypeError` mid-render, or fully rendered. -/
inductive RenderOutcome
  | refused
  | crashed
  | rendered
deriving DecidableEq

/-- The observable effect of one `displayResults` call. -/
structure DisplayResult where
  outcome : RenderOutcome
  errorMessageShown : Bool
  interviewContainerHidden : Bool
  resultsContainerShown : Bool
  resultsContentSet : Bool
deriving DecidableEq

/-- Embeds `displayResults` (script.js 616-688). The guard (618) rejects a
falsy `overall_assessment` or an absent `question_assessments` with a
user-visible message and returns before any DOM change. Past the guard, the
containers' visibility flips first (624-627); the HTML build then reads
`overall_score` (which renders as `undefined` when absent) and calls `.map`
on `strengths`, `areas_for_improvement` and `recommended_resources`
(656, 663, 670) — a `TypeError` there aborts the call after the visibility
flip but before `#resultsContent` is set (682). -/
def displayResults (data : ResultPayload) : DisplayResult :=
  if jsFalsyStr data.overall_assessment || data.question_assessments.isNone then
    ⟨.refused, true, false, false, false⟩
  else if data.strengths.isNone then ⟨.crashed, false, true, true, false⟩
  else if data.areas_for_improvement.isNone then ⟨.crashed, false, true, true, false⟩
  else if data.recommended_resources.isNone then ⟨.crashed, false, true, true, false⟩
  else ⟨.rendered, false, true, true, true⟩

/-! ## Helper lemmas -/

/-- Bound on the requests issued by the retry loop from any starting value
of the retry counter. -/
theorem analyzeFrom_requests_le (l : List Bool) :
    ∀ c, (analyzeFrom c l).requests ≤ MAX_RETRY_ATTEMPTS - c + 1 := by
  induction l with
  | nil => intro c; simp [analyzeFrom]
  | cons ok rest ih =>
    intro c
    cases ok with
    | true => simp [analyzeFrom]
    | false =>
      by_cases hc : c < MAX_RETRY_ATTEMPTS
      · have h1 := ih (c + 1)
        have h2 : (analyzeFrom c (false :: rest)).requests =
            (analyzeFrom (c + 1) rest).requests + 1 := by
          simp [analyzeFrom, hc]
        have hc3 : c < 3 := hc
        have hm : MAX_RETRY_ATTEMPTS = 3 := rfl
        rw [hm] at h1 ⊢
        omega
      · have h2 : (analyzeFrom c (false :: rest)).requests = 1 := by
          simp [analyzeFrom, hc]
        have hm : MAX_RETRY_ATTEMPTS = 3 := rfl
        rw [hm]
        omega

/-- After `stopSpeaking`, the speaking flag is off. -/
theorem stopSpeakingAnim_not_speaking (s : AnimState) :
    (stopSpeakingAnim s).isSpeaking = false := by
  rcases hf : s.animationFrame with _ | h <;> simp [stopSpeakingAnim, hf]

/-- With the speaking flag off, firing every pending frame leaves no pending
handle: each callback returns without rescheduling. -/
theorem fireList_drain :
    ∀ (t : List Nat) (s : AnimState), s.isSpeaking = false → s.pending = t →
      (fireList s t).pending = [] := by
  intro t
  induction t with
  | nil => intro s _ hp; simpa [fireList] using hp
  | cons h t ih =>
    intro s hsp hp
    simp only [fireList]
    apply ih
    · simp [fireFrame, hsp, hp]
    · simp [fireFrame, hsp, hp]

/-- Invariant of repeated avatar initialization: the listener count equals
the number of calls and at most one canvas survives. -/
theorem setupAvatar_iterate_aux :
    ∀ n : Nat, ((setupAvatar)^[n] initAvatarDom).resizeListeners = n ∧
      ((setupAvatar)^[n] initAvatarDom).canvasIds.length = min n 1 := by
  intro n
  induction n with
  | zero => simp [initAvatarDom]
  | succ k ih =>
    obtain ⟨h1, h2⟩ := ih
    rw [Function.iterate_succ_apply']
    constructor
    · simp [setupAvatar, h1]
    · cases hc : ((setupAvatar)^[k] initAvatarDom).canvasIds with
      | nil =>
        have h3 : (setupAvatar ((setupAvatar)^[k] initAvatarDom)).canvasIds =
            [((setupAvatar)^[k] initAvatarDom).nextCanvasId] := by
          simp [setupAvatar, hc]
        rw [h3]
        simp only [List.length_cons, List.length_nil]
        omega
      | cons a t =>
        rw [hc] at h2
        simp only [List.length_cons] at h2
        simp only [setupAvatar, hc, List.length_append, List.length_cons,
          List.length_nil]
        omega

/-! ## Claims -/

/-- C1: after a completed setup whose fetched or fallback-parsed question
list is non-empty and with `currentQuestionIndex = 0`, `startInterview`
should begin a capture+speech cycle — but the script parses the questions
into `allQuestions` while `startInterview` guards on the never-assigned
`questions`, so it always fails with the "No more questions available"
error. The third conjunct shows this for every possible question-service
response. -/
theorem startInterview_always_noQuestions_after_setup :
    (startSetupSuccess (some [str "Tell me about yourself"]) [] initialSession).allQuestions =
      [str "Tell me about yourself"] ∧
    startInterview (startSetupSuccess (some [str "Tell me about yourself"]) [] initialSession) =
      StartInterviewResult.noQuestionsError ∧
    ∀ (question_list : Option (List JStr)) (questionsText : JStr),
      startInterview (startSetupSuccess question_list questionsText initialSession) =
        StartInterviewResult.noQuestionsError := by
  exact ⟨by decide, by decide, fun _ _ => rfl⟩

/-- C2: the fallback parser, applied to a question-service response whose
structured list is empty and whose text is
`"1. Tell me about yourself\n2. Describe a challenge you solved"`, yields
exactly the two numbered questions in order, each trimmed. -/
theorem fallback_parses_two_numbered_questions :
    parseResponseQuestions (some [])
        (str "1. Tell me about yourself\n2. Describe a challenge you solved") =
      [str "1. Tell me about yourself", str "2. Describe a challenge you solved"] ∧
    parseResponseQuestions none
        (str "1. Tell me about yourself\n2. Describe a challenge you solved") =
      [str "1. Tell me about yourself", str "2. Describe a challenge you solved"] := by
  constructor <;> decide

/-- C3 counterexample: three consecutive failures do not reach the terminal
Failed state (a retry is still scheduled), and with a fourth failure the
loop has issued 4 requests — the claimed "no 4th request" is false. -/
theorem analysis_three_failures_not_terminal :
    (submitAnalysis [false, false, false]).outcome ≠ AnalysisOutcome.failed ∧
    (submitAnalysis [false, false, false, false]).requests = 4 := by
  decide

/-- C3 amended: the poller issues the initial request plus up to
`MAX_RETRY_ATTEMPTS = 3` retries, each after a fixed 5000 ms delay; four
consecutive failures transition to the terminal failure (with the
user-visible message) and no fifth request is ever issued, whatever further
outcomes would be. -/
theorem analysis_retry_bounded :
    (∀ rest : List Bool,
      submitAnalysis (false :: false :: false :: false :: rest) =
        ⟨4, [ANALYSIS_RETRY_DELAY, ANALYSIS_RETRY_DELAY, ANALYSIS_RETRY_DELAY],
         AnalysisOutcome.failed⟩) ∧
    (∀ outcomes : List Bool,
      (submitAnalysis outcomes).requests ≤ MAX_RETRY_ATTEMPTS + 1) := by
  constructor
  · intro rest; rfl
  · intro outcomes
    have h := analyzeFrom_requests_le outcomes 0
    simpa [submitAnalysis] using h

/-- C4 counterexample: calling `startSpeaking` twice without an intervening
`stopSpeaking` leaves two pending frame-loop handles while speaking — not
the claimed exactly one. -/
theorem startSpeaking_twice_two_loops :
    (startSpeakingAnim (startSpeakingAnim initAnim)).isSpeaking = true ∧
    (startSpeakingAnim (startSpeakingAnim initAnim)).pending.length = 2 := by
  decide

/-- C4 amended: a second `startSpeaking` without an intervening
`stopSpeaking` spawns a second concurrent draw loop (two pending handles),
because `startSpeaking` has no already-speaking guard; after `stopSpeaking`
the speaking flag is off, so every pending frame callback returns without
rescheduling and the pending handle count reaches zero once each fires. -/
theorem startSpeaking_twice_then_stop_drains :
    (startSpeakingAnim (startSpeakingAnim initAnim)).pending.length = 2 ∧
    ∀ s : AnimState,
      (stopSpeakingAnim s).isSpeaking = false ∧
      (fireList (stopSpeakingAnim s) (stopSpeakingAnim s).pending).pending = [] := by
  refine ⟨by decide, fun s => ⟨stopSpeakingAnim_not_speaking s, ?_⟩⟩
  exact fireList_drain (stopSpeakingAnim s).pending (stopSpeakingAnim s)
    (stopSpeakingAnim_not_speaking s) rfl

/-- C5: the artifact recorded during question 0 is uploaded with
`question_index` 1: `nextQuestion` increments `currentQuestionIndex` before
the host runs the queued `onstop` task, and `saveRecording` reads the
already-advanced global. -/
theorem nextQuestion_upload_index_off_by_one :
    (runSaveRecordingTask (nextQuestionSync
        ⟨0, 2, true, 1, 0, [], str "candidate_123"⟩)).uploads =
      [⟨1, str "candidate_123"⟩] := by
  decide

/-- C6 counterexample: on a synthesis request that fails, the trace still
contains the `startSpeaking` call (issued before the request outcome is
known) and no playback — contradicting "only on success ... calls
startSpeaking". -/
theorem speak_failure_trace_starts_speaking :
    speakQuestionTrace (str "Q1") TtsResponse.failure true =
      [SpeakEvent.setBubble (str "Q1"),
       SpeakEvent.startSpeakingCall speakIntensity,
       SpeakEvent.postSynthesis (str "Q1"), SpeakEvent.logErrorOnly,
       SpeakEvent.stopSpeakingCall,
       SpeakEvent.showErrorMsg
         (str "Error generating speech. Continuing with text only.")] ∧
    SpeakEvent.startSpeakingCall speakIntensity ∈
      speakQuestionTrace (str "Q1") TtsResponse.failure true := by
  refine ⟨rfl, ?_⟩
  simp [speakQuestionTrace]

/-- C6 amended: every `speakQuestion` run sets the bubble text, immediately
calls `startSpeaking` (the animator draws at fixed intensity 0.8) and then
posts the question for synthesis; playback begins exactly when the request
succeeds with a media locator; `stopSpeaking` is called exactly on the
error paths (request error, missing locator, or playback-engine rejection),
leaving the interview to continue text-only. -/
theorem speakQuestion_trace_behavior :
    speakIntensity = 0.8 ∧
    ∀ (q u : JStr) (resp : TtsResponse) (ok : Bool),
      ((speakQuestionTrace q resp ok).take 3 =
        [SpeakEvent.setBubble q, SpeakEvent.startSpeakingCall speakIntensity,
         SpeakEvent.postSynthesis q]) ∧
      (SpeakEvent.playAudio u ∈ speakQuestionTrace q resp ok ↔
        resp = TtsResponse.success (some u)) ∧
      (SpeakEvent.stopSpeakingCall ∈ speakQuestionTrace q resp ok ↔
        (resp = TtsResponse.failure ∨ resp = TtsResponse.success none ∨
         ((∃ v, resp = TtsResponse.success (some v)) ∧ ok = false))) := by
  refine ⟨rfl, fun q u resp ok => ⟨?_, ?_, ?_⟩⟩
  · rcases resp with u' | _ <;> [rcases u' with _ | v; skip] <;> rfl
  · rcases resp with u' | _ <;> [rcases u' with _ | v; skip] <;>
      cases ok <;> simp [speakQuestionTrace, eq_comm]
  · rcases resp with u' | _ <;> [rcases u' with _ | v; skip] <;>
      cases ok <;> simp [speakQuestionTrace]

/-- C7 counterexample: a payload missing the expected field `strengths`
passes the guard, flips the containers' visibility, and aborts with an
uncaught error before the results content is set — rendering is neither
refused nor crash-free, and the DOM mutation is partial. -/
theorem displayResults_missing_strengths_crashes :
    displayResults ⟨some (str "Good candidate"), some 7, some [], none,
        some [], some []⟩ =
      ⟨RenderOutcome.crashed, false, true, true, false⟩ := by
  decide

/-- C7 amended: rendering is refused — user-visible message, no crash, and
no DOM mutation of the results containers — whenever `overall_assessment`
or `question_assessments` is missing; for other missing expected fields the
guard does not fire. -/
theorem displayResults_guard_refuses :
    ∀ data : ResultPayload,
      (data.overall_assessment = none ∨ data.question_assessments = none) →
      displayResults data =
        ⟨RenderOutcome.refused, true, false, false, false⟩ := by
  intro data h
  rcases h with h | h <;> simp [displayResults, jsFalsyStr, h]

/-- Witness for the C7 amended theorem at a concrete payload. -/
theorem displayResults_guard_refuses_witness :
    displayResults ⟨none, some 7, some [], some [], some [], some []⟩ =
      ⟨RenderOutcome.refused, true, false, false, false⟩ :=
  displayResults_guard_refuses ⟨none, some 7, some [], some [], some [], some []⟩
    (Or.inl rfl)

/-- C8 counterexample: two avatar initializations leave two active resize
listeners — more than the claimed at-most-one. -/
theorem setupAvatar_twice_two_listeners :
    (setupAvatar (setupAvatar initAvatarDom)).resizeListeners = 2 := by
  decide

/-- C8 amended: each `setupAvatarAnimations` call removes any prior drawing
surface first, so after any positive number of initializations exactly one
canvas exists — but every call registers a fresh window resize listener
without removing the previous one, so after n initializations n listeners
remain active. -/
theorem setupAvatar_iterate_listeners_leak :
    ∀ n : Nat, ((setupAvatar)^[n] initAvatarDom).resizeListeners = n ∧
      ((setupAvatar)^[n + 1] initAvatarDom).canvasIds.length = 1 := by
  intro n
  refine ⟨(setupAvatar_iterate_aux n).1, ?_⟩
  have h := (setupAvatar_iterate_aux (n + 1)).2
  rw [h]
  omega

/-- C9: the drawn mouth height equals
base + 3 × base × (sin(frame × 0.3) × intensity + intensity), and one
`drawMouth` invocation increments the frame counter exactly once when a
frame is drawn (speaking flag on) and not at all otherwise. -/
theorem drawMouth_height_and_frameCount :
    (∀ (sine : ℝ → ℝ) (base intensity : ℝ) (f : ℕ),
      mouthHeightOf sine base intensity f =
        base + 3 * base * (sine (f * 0.3) * intensity + intensity)) ∧
    (∀ s : DrawState, (drawMouthStep s).1.frameCount =
      if s.isSpeaking then s.frameCount + 1 else s.frameCount) ∧
    (∀ s : DrawState, (drawMouthStep s).2 = s.isSpeaking) := by
  refine ⟨fun sine base intensity f => ?_, fun s => ?_, fun s => ?_⟩
  · simp only [mouthHeightOf, openAmount]; ring
  · cases hs : s.isSpeaking <;> simp [drawMouthStep, hs]
  · cases hs : s.isSpeaking <;> simp [drawMouthStep, hs]

/-- C10: `stopRecording` with no recorder or an inactive recorder performs
no recorder action and raises no error, so `stopInterview` — which begins
with `stopRecording` — can be invoked at any such time, and repeatedly,
with no recorder action and no error message in its trace. -/
theorem stopRecording_inactive_noop :
    ∀ s : StopState,
      (s.mediaRecorder = none ∨ s.mediaRecorder = some RecorderState.inactive) →
      (stopRecording s = (s, []) ∧
       JsAction.recorderStop ∉ (stopInterview s).2 ∧
       (∀ m, JsAction.showError m ∉ (stopInterview s).2) ∧
       (stopInterview s).1.mediaRecorder = s.mediaRecorder ∧
       JsAction.recorderStop ∉ (stopInterview (stopInterview s).1).2 ∧
       (∀ m, JsAction.showError m ∉ (stopInterview (stopInterview s).1).2)) := by
  intro s h
  have hstop : stopRecording s = (s, []) := by
    rcases h with h | h <;> simp [stopRecording, h]
  refine ⟨hstop, ?_, ?_, ?_, ?_, ?_⟩ <;>
    simp [stopInterview, stopRecording, hstop] <;>
    rcases h with h | h <;> simp [h]

/-- Witness for the C10 theorem at a concrete page-load state. -/
theorem stopRecording_inactive_noop_witness :
    stopRecording ⟨none, false, false, false, 0⟩ =
      (⟨none, false, false, false, 0⟩, []) ∧
    JsAction.recorderStop ∉ (stopInterview ⟨none, false, false, false, 0⟩).2 :=
  ⟨(stopRecording_inactive_noop ⟨none, false, false, false, 0⟩ (Or.inl rfl)).1,
   (stopRecording_inactive_noop ⟨none, false, false, false, 0⟩ (Or.inl rfl)).2.1⟩

end MockMantra
